import Mathlib

/-!
# Shallow embedding of `geddit`'s app-only OAuth session

This file embeds `apponlyoauth_session.go` of the `geddit` reddit API client.
The session holds credentials, a lazily refreshed OAuth token and the HTTP
client derived from it; endpoint methods build URLs, fetch and decode JSON.

External collaborators (the token endpoint, the HTTP transport, the JSON
codec) are modelled as an explicit environment (`FetchEnv`) passed to the
operations; the session itself is a pure state value threaded through them.
`time.Time` is modelled as `Int` (an instant on a linear clock) and
`time.Now().Before(e)` as `now < e`.
-/

namespace Geddit

/-- Modelled from the spec: `popularitySort` is an enumerated string type of
sort keys (`hot`, `new`, `top`, ...); its underlying representation is a
string, with the empty string meaning "no sort requested".  Its definition
lives outside the embedded source file, which only compares it with `""` and
casts it to `string`. -/
abbrev popularitySort := String

/-- Modelled from the spec: `Submission` is a plain data record deserialized
from JSON; the embedded source file only reads its `ID` field (in `Comments`),
so only that field is modelled. -/
structure Submission where
  ID : String
  deriving DecidableEq, Repr

/-- Modelled from the spec: `Trophy` is a plain data record deserialized from
JSON; the embedded source only moves it around, so it is modelled as an opaque
record with a single name field. -/
structure Trophy where
  name : String
  deriving DecidableEq, Repr

/-- Modelled from the spec: `ListingOptions` is a value object of optional
pagination/filter parameters (after/before cursors, count, limit, show-all
flag); all fields optional. -/
structure ListingOptions where
  after : Option String := none
  before : Option String := none
  count : Option Nat := none
  limit : Option Nat := none
  showAll : Bool := false
  deriving DecidableEq, Repr

/-- `url.Values`: an association of query keys to values.  Go's
`map[string][]string` is modelled as a list of key/value pairs. -/
abbrev Values := List (String × String)

/-- `url.Values.Set`: replace any existing pairs for the key with the single
given value. -/
def valuesSet (vs : Values) (key value : String) : Values :=
  vs.filter (fun p => p.1 ≠ key) ++ [(key, value)]

/-- Insertion of one pair into a list sorted by key (`url.Values.Encode`
emits keys in sorted order). -/
def insertByKey (p : String × String) : Values → Values
  | [] => [p]
  | q :: qs => if p.1 < q.1 then p :: q :: qs else q :: insertByKey p qs

/-- Sort an association list by key (insertion sort). -/
def sortByKey : Values → Values
  | [] => []
  | p :: ps => insertByKey p (sortByKey ps)

/-- `url.Values.Encode`: keys in sorted order, `k=v` pairs joined by `&`.
Percent-escaping is the external serializer's business (the spec places the
query-string builder out of scope); the inputs the embedded code feeds it are
plain ASCII names and numbers. -/
def valuesEncode (vs : Values) : String :=
  String.intercalate "&" ((sortByKey vs).map (fun p => p.1 ++ "=" ++ p.2))

/-- Modelled from the spec: `query.Values(params)` — the external
query-string serializer maps a `ListingOptions` value to URL-encoded
key/value pairs, omitting unset fields.  For a `ListingOptions` argument it
never fails (the error return of `query.Values` concerns non-struct inputs),
so it is modelled as a total function. -/
def queryValues (o : ListingOptions) : Values :=
  (match o.after with | none => [] | some a => [("after", a)]) ++
  (match o.before with | none => [] | some b => [("before", b)]) ++
  (match o.count with | none => [] | some c => [("count", toString c)]) ++
  (match o.limit with | none => [] | some l => [("limit", toString l)]) ++
  (if o.showAll then [("show", "all")] else [])

/-- An OAuth access token, as returned by the token endpoint.  The embedded
code reads its expiry (`t.Expiry`) and builds the authenticated HTTP client
from it (`a.OAuthConfig.Client(a.ctx)`); the client handle is therefore
modelled as the token it wraps. -/
structure Token where
  expiry : Int
  access : String
  deriving DecidableEq, Repr

/-- `clientcredentials.Config` as set up by the constructor. -/
structure OAuthCfg where
  clientID : String
  clientSecret : String
  tokenURL : String
  deriving DecidableEq, Repr

/-- `AppOnlyOAuthSession`: credentials, user agent, token expiry, debug flag
and the (initially absent) authenticated HTTP client.  `Client *http.Client`
is `client : Option Token` (`none` is Go's `nil`; a present client carries
the token it was built from). -/
structure Session where
  client : Option Token
  clientID : String
  clientSecret : String
  oauthConfig : OAuthCfg
  tokenExpiry : Int
  userAgent : String
  debug : Bool
  deriving DecidableEq, Repr

/-- `NewAppOnlyOAuthSession(clientID, clientSecret, useragent, debug)`:
builds the session value and returns it with a nil error — the Go body has a
single `return s, nil`.  The zero value of `time.Time` is modelled as `0`;
the zero `*http.Client` is `none`. -/
def NewAppOnlyOAuthSession (clientID clientSecret useragent : String)
    (debug : Bool) : Except String Session :=
  .ok
    { client := none
      clientID := clientID
      clientSecret := clientSecret
      oauthConfig :=
        { clientID := clientID
          clientSecret := clientSecret
          tokenURL := "https://www.reddit.com/api/v1/access_token" }
      tokenExpiry := 0
      userAgent :=
        if useragent ≠ "" then useragent
        else "Geddit API Client https://github.com/imheresamir/geddit"
      debug := debug }

/-- `refreshToken`: if `time.Now().Before(a.TokenExpiry)`, return nil without
touching the state; otherwise perform the token exchange
(`a.OAuthConfig.Token(a.ctx)`, whose outcome the environment supplies as
`exchange`): on failure return the error with the state untouched, on success
store the new expiry and install the client built from the token. -/
def refreshToken (now : Int) (exchange : Except String Token)
    (s : Session) : Except String Unit × Session :=
  if now < s.tokenExpiry then (.ok (), s)
  else
    match exchange with
    | .error e => (.error e, s)
    | .ok t => (.ok (), { s with tokenExpiry := t.expiry, client := some t })

/-- The errors `getBody` can return, one constructor per `return err` site:
request construction failure, the literal
`"OAuth Session lacks HTTP client! Error getting token"` error, a transport
failure from `a.Client.Do(req)`, and a `json.Unmarshal` failure. -/
inductive GErr where
  | newReqErr (msg : String)
  | noClient
  | doErr (msg : String)
  | decodeErr (msg : String)
  deriving DecidableEq, Repr

/-- The GET request `getBody` builds: the link and the `User-Agent` header. -/
structure Request where
  url : String
  userAgent : String
  deriving DecidableEq, Repr

/-- The external collaborators of one `getBody` call: the token endpoint
outcome, whether `http.NewRequest` succeeds for a link, the transport
(`Client.Do` plus `ioutil.ReadAll`, given the request and the client it is
issued with, producing a raw body), and the JSON codec decoding a body into
the target type `D`. -/
structure FetchEnv (D : Type) where
  exchange : Except String Token
  newReq : String → Option String
  doReq : Request → Token → Except String String
  decodeBody : String → Except String D

/-- `getBody(link, d)`: calls `a.refreshToken()` discarding its error, builds
the GET request with the session's user agent, fails with the distinct
`noClient` error if `a.Client == nil`, otherwise executes the request with
the current client and decodes the body.  (The `ioutil.ReadAll` error is
overwritten unchecked by the `json.Unmarshal` assignment in the source, so
the transport model already folds reading the body into `doReq`; the debug
print is a side effect with no bearing on the result.) -/
def getBody {D : Type} (env : FetchEnv D) (now : Int) (link : String)
    (s : Session) : Except GErr D × Session :=
  let s1 := (refreshToken now env.exchange s).2
  match env.newReq link with
  | some msg => (.error (.newReqErr msg), s1)
  | none =>
    let req : Request := { url := link, userAgent := s1.userAgent }
    match s1.client with
    | none => (.error .noClient, s1)
    | some c =>
      match env.doReq req c with
      | .error msg => (.error (.doErr msg), s1)
      | .ok body =>
        match env.decodeBody body with
        | .error msg => (.error (.decodeErr msg), s1)
        | .ok d => (.ok d, s1)

/-- One child of a listing envelope: `struct { Data *Submission }` — the
pointer may be nil, hence `Option`. -/
structure SubmissionChild where
  data : Option Submission
  deriving DecidableEq, Repr

/-- The response envelope of `Listing` and `SubredditSubmissions`:
`struct { Data struct { Children []struct { Data *Submission } } }`. -/
structure ListingResp where
  children : List SubmissionChild
  deriving DecidableEq, Repr

/-- The URL built by `Listing`:
`fmt.Sprintf("https://oauth.reddit.com/user/%s/%s?%s", username, listing, p.Encode())`
where `p` is the serialized options with `sort` set when non-empty. -/
def listingURL (username listing : String) (sort : popularitySort)
    (params : ListingOptions) : String :=
  let p := queryValues params
  let p := if sort ≠ "" then valuesSet p "sort" sort else p
  "https://oauth.reddit.com/user/" ++ username ++ "/" ++ listing ++ "?" ++
    valuesEncode p

/-- `Listing(username, listing, sort, params)`: serialize the options, set
`sort` when non-empty, fetch the envelope and copy each child's `Data`
pointer into the result slice in order. -/
def Listing (env : FetchEnv ListingResp) (now : Int) (s : Session)
    (username listing : String) (sort : popularitySort)
    (params : ListingOptions) :
    Except GErr (List (Option Submission)) × Session :=
  match getBody env now (listingURL username listing sort params) s with
  | (.error e, s1) => (.error e, s1)
  | (.ok r, s1) => (.ok (r.children.map (fun c => c.data)), s1)

/-- `Upvoted(username, sort, params)`: alias for
`a.Listing(username, "upvoted", sort, params)`. -/
def Upvoted (env : FetchEnv ListingResp) (now : Int) (s : Session)
    (username : String) (sort : popularitySort) (params : ListingOptions) :
    Except GErr (List (Option Submission)) × Session :=
  Listing env now s username "upvoted" sort params

/-- One child of the trophies envelope: `struct { Data Trophy }`. -/
structure TrophyChild where
  data : Trophy
  deriving DecidableEq, Repr

/-- The response envelope of `UserTrophies`:
`struct { Data struct { Trophies []struct { Data Trophy } } }`. -/
structure TrophyResp where
  trophies : List TrophyChild
  deriving DecidableEq, Repr

/-- The unwrap loop of `UserTrophies` under Go's pre-1.22 range semantics:
`for _, trophy := range t.Data.Trophies { trophies = append(trophies, &trophy.Data) }`
declares a single variable `trophy` reused by every iteration, and
`&trophy.Data` is the address of that one variable's field, so every
appended pointer aliases the same cell; the fold carries that cell
(the last value written) and the count of appended pointers, and the
returned slice, read through those pointers, is the final cell value
repeated that many times. -/
def userTrophiesUnwrap (children : List TrophyChild) : List Trophy :=
  let cell := children.foldl (fun _ ch => some ch.data)
                (none : Option Trophy)
  match cell with
  | none => []
  | some t => List.replicate children.length t

/-- `UserTrophies(user)`: fetch the trophies envelope and unwrap it with the
aliasing loop above. -/
def UserTrophies (env : FetchEnv TrophyResp) (now : Int) (s : Session)
    (user : String) : Except GErr (List Trophy) × Session :=
  match getBody env now
      ("https://oauth.reddit.com/api/v1/user/" ++ user ++ "/trophies") s with
  | (.error e, s1) => (.error e, s1)
  | (.ok t, s1) => (.ok (userTrophiesUnwrap t.trophies), s1)

/-- The intended unwrap, as the spec states it: one record per child, in
source order, each carrying that child's own data.  Named from the spec for
comparison with `userTrophiesUnwrap`, the loop the source actually runs. -/
def userTrophiesSpec (children : List TrophyChild) : List Trophy :=
  children.map (fun ch => ch.data)

/-- The URL built by `Comments`:
`fmt.Sprintf("https://oauth.reddit.com/comments/%s?%s", h.ID, p.Encode())`.
`Comments` takes a `sort popularitySort` parameter but never uses it — `p`
is only `query.Values(params)`; the binder is kept to mirror the Go
signature. -/
def commentsURL (h : Submission) (sort : popularitySort)
    (params : ListingOptions) : String :=
  let p := queryValues params
  "https://oauth.reddit.com/comments/" ++ h.ID ++ "?" ++ valuesEncode p

/-- The URL built by `SubredditSubmissions`: the base URL gains a
`/r/{subreddit}` segment only for a non-empty subreddit, then
`fmt.Sprintf(baseUrl+"/%s.json?%s", sort, v.Encode())`. -/
def subredditSubmissionsURL (subreddit : String) (sort : popularitySort)
    (params : ListingOptions) : String :=
  let v := queryValues params
  let baseUrl := "https://oauth.reddit.com"
  let baseUrl := if subreddit ≠ "" then baseUrl ++ "/r/" ++ subreddit
                 else baseUrl
  baseUrl ++ "/" ++ sort ++ ".json?" ++ valuesEncode v

/-- `SubredditSubmissions(subreddit, sort, params)`: build the URL (empty
subreddit omits the `/r/` segment), fetch the envelope and copy each child's
`Data` pointer into the result slice in order. -/
def SubredditSubmissions (env : FetchEnv ListingResp) (now : Int)
    (s : Session) (subreddit : String) (sort : popularitySort)
    (params : ListingOptions) :
    Except GErr (List (Option Submission)) × Session :=
  match getBody env now (subredditSubmissionsURL subreddit sort params) s with
  | (.error e, s1) => (.error e, s1)
  | (.ok r, s1) => (.ok (r.children.map (fun c => c.data)), s1)

/-- `Frontpage(sort, params)`: `return a.SubredditSubmissions("", sort, params)`. -/
def Frontpage (env : FetchEnv ListingResp) (now : Int) (s : Session)
    (sort : popularitySort) (params : ListingOptions) :
    Except GErr (List (Option Submission)) × Session :=
  SubredditSubmissions env now s "" sort params

/-- One session operation together with the environment it runs against:
either a bare `refreshToken` or a `getBody`-backed API call (every endpoint
method mutates the session only through `getBody`; the decoded type does not
affect the state, so fetches are recorded at `D := String`). -/
inductive OpEnv where
  | refresh (now : Int) (exchange : Except String Token)
  | fetch (env : FetchEnv String) (now : Int) (link : String)

/-- The session state after running one operation. -/
def stepOp (s : Session) : OpEnv → Session
  | .refresh now ex => (refreshToken now ex s).2
  | .fetch env now link => (getBody env now link s).2

/-- The session state after running a sequence of operations. -/
def runOps (s : Session) (ops : List OpEnv) : Session :=
  ops.foldl stepOp s

/-- A sample session with an installed client, for concrete witnesses. -/
def sampleSession : Session :=
  { client := some { expiry := 100, access := "tok" }
    clientID := "id"
    clientSecret := "secret"
    oauthConfig :=
      { clientID := "id", clientSecret := "secret"
        tokenURL := "https://www.reddit.com/api/v1/access_token" }
    tokenExpiry := 100
    userAgent := "ua"
    debug := false }

/-- A sample fresh session (no client yet), for concrete witnesses. -/
def freshSession : Session :=
  { sampleSession with client := none, tokenExpiry := 0 }

/-- `refreshToken` never clears an installed client: it either leaves the
state alone or installs the client built from a fresh token. -/
theorem refreshToken_client_isSome (now : Int) (ex : Except String Token)
    (s : Session) (h : s.client.isSome = true) :
    ((refreshToken now ex s).2.client).isSome = true := by
  unfold refreshToken
  split
  · exact h
  · cases ex <;> simp [h]

/-- No single operation clears an installed client. -/
theorem stepOp_client_isSome (s : Session) (op : OpEnv)
    (h : s.client.isSome = true) :
    ((stepOp s op).client).isSome = true := by
  cases op with
  | refresh now ex => exact refreshToken_client_isSome now ex s h
  | fetch env now link =>
      have h1 := refreshToken_client_isSome now env.exchange s h
      simp only [stepOp, getBody]
      cases hn : env.newReq link with
      | some msg => exact h1
      | none =>
          cases hc : (refreshToken now env.exchange s).2.client with
          | none => simp [hc] at h1
          | some c =>
              cases hd : env.doReq
                  { url := link,
                    userAgent := (refreshToken now env.exchange s).2.userAgent } c with
              | error msg => simp [hc, hd]
              | ok body =>
                  cases hdec : env.decodeBody body <;> simp [hc, hd, hdec]

/-- No sequence of operations clears an installed client. -/
theorem runOps_client_isSome (s : Session) (ops : List OpEnv)
    (h : s.client.isSome = true) :
    ((runOps s ops).client).isSome = true := by
  induction ops generalizing s with
  | nil => exact h
  | cons op ops ih =>
      exact ih (stepOp s op) (stepOp_client_isSome s op h)

/-- `getBody` can return the `noClient` error only when the post-refresh
client is absent; with a client installed that branch is dead. -/
theorem getBody_ne_noClient {D : Type} (env : FetchEnv D) (now : Int)
    (link : String) (s : Session) (h : s.client.isSome = true) :
    (getBody env now link s).1 ≠ Except.error GErr.noClient := by
  have h1 := refreshToken_client_isSome now env.exchange s h
  simp only [getBody]
  cases hn : env.newReq link with
  | some msg => simp
  | none =>
      cases hc : (refreshToken now env.exchange s).2.client with
      | none => simp [hc] at h1
      | some c =>
          cases hd : env.doReq
              { url := link,
                userAgent := (refreshToken now env.exchange s).2.userAgent } c with
          | error msg => simp [hc, hd]
          | ok body => cases hdec : env.decodeBody body <;> simp [hc, hd, hdec]

/-- C2: a token-refresh failure inside `getBody` is not fatal to the call:
the error of `a.refreshToken()` is discarded, the fetch proceeds to build the
HTTP request, and when no token was ever successfully obtained (client handle
still absent) the call fails with the distinct `noClient` error — the literal
"OAuth Session lacks HTTP client! Error getting token" — not with the refresh
error, and the session state is unchanged. -/
theorem c2_refresh_failure_not_fatal {D : Type} (env : FetchEnv D)
    (now : Int) (link : String) (s : Session) (e : String)
    (hex : env.exchange = .error e) (hreq : env.newReq link = none)
    (hc : s.client = none) :
    getBody env now link s = (.error .noClient, s) := by
  have hs1 : (refreshToken now env.exchange s).2 = s := by
    unfold refreshToken; rw [hex]; split <;> rfl
  simp [getBody, hs1, hreq, hc]

/-- Witness for C2 at a concrete environment and fresh session. -/
theorem c2_refresh_failure_witness :
    getBody
      { exchange := .error "boom", newReq := fun _ => none,
        doReq := fun _ _ => .ok "body", decodeBody := fun b => .ok b }
      5 "https://oauth.reddit.com/user/bob/upvoted?" freshSession
      = (.error .noClient, freshSession) :=
  c2_refresh_failure_not_fatal _ 5 _ freshSession "boom" rfl rfl rfl

/-- C3: when the token exchange fails, `refreshToken` propagates the error
and leaves the whole session state (token expiry and client handle included)
unchanged, so a later call will hit the expiry check and retry the exchange. -/
theorem c3_refresh_error_state_unchanged (now : Int) (e : String)
    (s : Session) (h : ¬ now < s.tokenExpiry) :
    refreshToken now (.error e) s = (.error e, s) := by
  simp [refreshToken, h]

/-- Witness for C3 at a concrete expired session. -/
theorem c3_refresh_error_witness :
    refreshToken 200 (.error "exchange failed") sampleSession
      = (.error "exchange failed", sampleSession) :=
  c3_refresh_error_state_unchanged 200 "exchange failed" sampleSession (by decide)

/-- C4: before expiry `refreshToken` is idempotent: whatever the token
endpoint would answer, the call returns nil without consulting it (so no
exchange is performed), and any number of repeated calls within the expiry
window leaves the session state unchanged. -/
theorem c4_refresh_idempotent_before_expiry (now : Int) (s : Session)
    (h : now < s.tokenExpiry) :
    (∀ ex : Except String Token, refreshToken now ex s = (.ok (), s)) ∧
    ∀ exs : List (Except String Token),
      exs.foldl (fun st ex => (refreshToken now ex st).2) s = s := by
  have h1 : ∀ ex : Except String Token, refreshToken now ex s = (.ok (), s) := by
    intro ex; simp [refreshToken, h]
  refine ⟨h1, ?_⟩
  intro exs
  induction exs with
  | nil => rfl
  | cons ex exs ih =>
      simp only [List.foldl_cons, h1 ex]
      exact ih

/-- Witness for C4: two calls (one with a failing exchange, one with a fresh
token on offer) before expiry leave the sample session untouched. -/
theorem c4_refresh_idempotent_witness :
    [Except.error "e1", Except.ok { expiry := 999, access := "t2" }].foldl
        (fun st ex => (refreshToken 50 ex st).2) sampleSession = sampleSession :=
  (c4_refresh_idempotent_before_expiry 50 sampleSession (by decide)).2 _

/-- C9: once one token exchange has succeeded, the session's client handle
is present and stays present after every subsequent operation (no operation
clears it), so the "OAuth Session lacks HTTP client" branch of `getBody` is
unreachable from any such session. -/
theorem c9_client_persists (now : Int) (t : Token) (s : Session)
    (h : ¬ now < s.tokenExpiry) (ops : List OpEnv) :
    ((runOps (refreshToken now (.ok t) s).2 ops).client).isSome = true ∧
    ∀ {D : Type} (env : FetchEnv D) (now2 : Int) (link : String),
      (getBody env now2 link (runOps (refreshToken now (.ok t) s).2 ops)).1
        ≠ Except.error GErr.noClient := by
  have hs1 : (((refreshToken now (.ok t) s).2).client).isSome = true := by
    simp [refreshToken, h]
  have hall := runOps_client_isSome _ ops hs1
  exact ⟨hall, fun env now2 link => getBody_ne_noClient env now2 link _ hall⟩

/-- Witness for C9: after a successful exchange on a fresh session and one
further failing refresh, the client handle is still present. -/
theorem c9_client_persists_witness :
    ((runOps (refreshToken 10 (.ok { expiry := 3600, access := "t" })
        freshSession).2 [OpEnv.refresh 20 (.error "boom")]).client).isSome
      = true :=
  (c9_client_persists 10 { expiry := 3600, access := "t" } freshSession
      (by decide) [OpEnv.refresh 20 (.error "boom")]).1

/-- C10: for a session that already holds a client, when the token has
expired and the refresh attempt fails, `getBody` surfaces no auth error: it
proceeds to issue the HTTP request with the stale client (the one built from
the old token) and returns exactly what the transport/decode pipeline gives,
leaving the session — its expired `tokenExpiry` included — unchanged. -/
theorem c10_stale_client_proceeds {D : Type} (env : FetchEnv D) (now : Int)
    (link : String) (s : Session) (c : Token) (e : String)
    (hc : s.client = some c) (hnow : ¬ now < s.tokenExpiry)
    (hex : env.exchange = .error e) (hreq : env.newReq link = none) :
    getBody env now link s =
      ((match env.doReq { url := link, userAgent := s.userAgent } c with
        | .error msg => .error (.doErr msg)
        | .ok body =>
          match env.decodeBody body with
          | .error msg => .error (.decodeErr msg)
          | .ok d => .ok d), s) := by
  have hs1 : (refreshToken now env.exchange s).2 = s := by
    simp [refreshToken, hnow, hex]
  simp only [getBody, hs1, hreq]
  cases hd : env.doReq { url := link, userAgent := s.userAgent } c with
  | error msg => simp [hc, hd]
  | ok body => cases hdec : env.decodeBody body <;> simp [hc, hd, hdec]

/-- Witness for C10: an expired sample session with a failing refresh still
carries out the fetch and returns the decoded body. -/
theorem c10_stale_client_witness :
    getBody
      { exchange := .error "refresh failed", newReq := fun _ => none,
        doReq := fun _ _ => .ok "rawbody", decodeBody := fun b => .ok b }
      200 "https://oauth.reddit.com/user/bob/about" sampleSession
      = (.ok "rawbody", sampleSession) :=
  (c10_stale_client_proceeds
      { exchange := .error "refresh failed", newReq := fun _ => none,
        doReq := fun _ _ => .ok "rawbody", decodeBody := fun b => .ok b }
      200 "https://oauth.reddit.com/user/bob/about" sampleSession
      { expiry := 100, access := "tok" } "refresh failed"
      rfl (by decide) rfl rfl).trans rfl

/-- C7: the constructor never fails and performs no token fetch: for every
choice of credentials, user agent and debug flag it returns a session (nil
error) whose user agent is the given one, or the default identifying string
when the given one is empty, and whose client handle and token expiry are
still at their zero values. -/
theorem c7_constructor_total (cid csec ua : String) (dbg : Bool) :
    ∃ s : Session, NewAppOnlyOAuthSession cid csec ua dbg = .ok s ∧
      s.userAgent = (if ua = "" then
          "Geddit API Client https://github.com/imheresamir/geddit" else ua) ∧
      s.client = none ∧ s.tokenExpiry = 0 ∧
      s.clientID = cid ∧ s.clientSecret = csec ∧ s.debug = dbg := by
  refine ⟨_, rfl, ?_, rfl, rfl, rfl, rfl, rfl⟩
  by_cases h : ua = "" <;> simp [NewAppOnlyOAuthSession, h]

/-- C6: `Frontpage(sort, params)` is literally
`SubredditSubmissions("", sort, params)`, and the empty subreddit name
produces the default frontpage URL with no `/r/{subreddit}` segment. -/
theorem c6_frontpage_refines_subreddit_submissions
    (env : FetchEnv ListingResp) (now : Int) (s : Session)
    (sort : popularitySort) (params : ListingOptions) :
    Frontpage env now s sort params
      = SubredditSubmissions env now s "" sort params ∧
    subredditSubmissionsURL "" sort params =
      "https://oauth.reddit.com" ++ "/" ++ sort ++ ".json?" ++
        valuesEncode (queryValues params) := by
  refine ⟨rfl, ?_⟩
  simp [subredditSubmissionsURL]

/-- C8: a response body that fails JSON decoding makes the endpoint method
return the decode error with the session unchanged; the error result carries
no submissions, so no partially populated record reaches the caller. -/
theorem c8_decode_error_yields_error (env : FetchEnv ListingResp) (now : Int)
    (s : Session) (c : Token) (username listing : String)
    (sort : popularitySort) (params : ListingOptions) (body msg : String)
    (hnow : now < s.tokenExpiry) (hc : s.client = some c)
    (hreq : env.newReq (listingURL username listing sort params) = none)
    (hdo : env.doReq { url := listingURL username listing sort params,
                       userAgent := s.userAgent } c = .ok body)
    (hdec : env.decodeBody body = .error msg) :
    Listing env now s username listing sort params
      = (.error (.decodeErr msg), s) := by
  have hs1 : (refreshToken now env.exchange s).2 = s := by
    simp [refreshToken, hnow]
  simp [Listing, getBody, hs1, hreq, hc, hdo, hdec]

/-- A concrete fetch environment whose body never decodes, for C8. -/
def envC8 : FetchEnv ListingResp :=
  { exchange := .error "x", newReq := fun _ => none,
    doReq := fun _ _ => .ok "notjson",
    decodeBody := fun _ => .error "invalid json" }

/-- Witness for C8 at a concrete non-JSON body. -/
theorem c8_decode_error_witness :
    Listing envC8 5 sampleSession "bob" "saved" "" {}
      = (.error (.decodeErr "invalid json"), sampleSession) :=
  c8_decode_error_yields_error envC8 5 sampleSession
    { expiry := 100, access := "tok" } "bob" "saved" "" {} "notjson"
    "invalid json" (by decide) rfl rfl rfl rfl

/-- C1 counterexample: `Comments` does not reflect a non-empty sort argument
in the URL it builds — with sort "hot" and with no sort at all the URL is the
same, and it contains no sort pair. -/
theorem c1_comments_sort_counterexample :
    commentsURL { ID := "abc123" } "hot" {} = commentsURL { ID := "abc123" } "" {} ∧
    commentsURL { ID := "abc123" } "hot" {}
      = "https://oauth.reddit.com/comments/abc123?" := by
  exact ⟨rfl, rfl⟩

/-- C1 (amended): `Listing` (and through it `Upvoted`) serializes the options
plus a non-empty sort key into the query string; `SubredditSubmissions` (and
through it `Frontpage`) serializes the options into the query string but
places the sort key in the URL path, as the `{sort}.json` segment; `Comments`
serializes only the options, ignoring its sort argument entirely. -/
theorem c1_url_serialization_amended (username listing subreddit : String)
    (sort sort' : popularitySort) (params : ListingOptions) (h : Submission)
    (hs : sort ≠ "") (hr : subreddit ≠ "") :
    listingURL username listing sort params =
      "https://oauth.reddit.com/user/" ++ username ++ "/" ++ listing ++ "?" ++
        valuesEncode (valuesSet (queryValues params) "sort" sort) ∧
    subredditSubmissionsURL subreddit sort params =
      "https://oauth.reddit.com" ++ "/r/" ++ subreddit ++ "/" ++ sort ++
        ".json?" ++ valuesEncode (queryValues params) ∧
    commentsURL h sort params = commentsURL h sort' params := by
  refine ⟨?_, ?_, rfl⟩
  · simp [listingURL, hs]
  · simp [subredditSubmissionsURL, hr]

/-- Witness for C1 (amended) at concrete inputs. -/
theorem c1_url_serialization_witness :
    listingURL "bob" "upvoted" "hot" {}
      = "https://oauth.reddit.com/user/bob/upvoted?sort=hot" ∧
    subredditSubmissionsURL "pics" "hot" {}
      = "https://oauth.reddit.com/r/pics/hot.json?" ∧
    commentsURL { ID := "abc" } "hot" {} = commentsURL { ID := "abc" } "new" {} := by
  have h := c1_url_serialization_amended "bob" "upvoted" "pics" "hot" "new" {}
    { ID := "abc" } (by decide) (by decide)
  exact ⟨h.1.trans (by rfl), h.2.1.trans (by rfl), h.2.2⟩

/-- A concrete fetch environment delivering a two-trophy envelope, for C5. -/
def envC5 : FetchEnv TrophyResp :=
  { exchange := .error "unused", newReq := fun _ => none,
    doReq := fun _ _ => .ok "trophyjson",
    decodeBody := fun _ =>
      .ok { trophies := [{ data := { name := "gold" } },
                         { data := { name := "silver" } }] } }

/-- C5 failing input: on an envelope with two distinct trophies, the
`UserTrophies` unwrap loop — whose appended pointers all alias the single
range variable — returns the last trophy twice, not one record per child
with that child's own data (which is what `userTrophiesSpec` states), and
the full `UserTrophies` call delivers that aliased result to the caller. -/
theorem c5_usertrophies_failing_input :
    userTrophiesUnwrap [{ data := { name := "gold" } },
                        { data := { name := "silver" } }]
      = [{ name := "silver" }, { name := "silver" }] ∧
    userTrophiesSpec [{ data := { name := "gold" } },
                      { data := { name := "silver" } }]
      = [{ name := "gold" }, { name := "silver" }] ∧
    (UserTrophies envC5 5 sampleSession "bob").1
      = .ok [{ name := "silver" }, { name := "silver" }] ∧
    [Trophy.mk "silver", Trophy.mk "silver"]
      ≠ [Trophy.mk "gold", Trophy.mk "silver"] := by
  refine ⟨rfl, rfl, rfl, by decide⟩

end Geddit
